import Mathlib

/-!
Shallow embedding of the donation checkout and payment-confirmation flow of
the heavenlynatureministry frontend.

Sources embedded:
- src/frontend/src/pages/Donations.jsx : the Donations page (form state,
  handleDonate) and the DonationSuccess confirmation page.
- src/frontend/src/pages/Donations.js : the earlier Donations page variant
  (handleDonate with a fixed "usd" currency and a detail-bearing error toast).

JavaScript numbers are modelled as exact values: NaN and signed Infinity are
explicit constructors and finite values are exact decimal fractions (an
integer numerator over a power-of-ten denominator, kept unnormalized). This
is faithful for every comparison the embedded code performs.
-/

namespace HNM

/-- An exact decimal fraction num / den with den a positive power of ten;
the value a decimal literal denotes. -/
structure Dec where
  num : ℤ
  den : ℕ
deriving DecidableEq, Repr

/-- Model of a JavaScript number as produced by parseFloat: NaN, a signed
infinity, or a finite value represented exactly as a decimal fraction. -/
inductive JSNum where
  | nan : JSNum
  | inf (neg : Bool) : JSNum
  | fin (d : Dec) : JSNum
deriving DecidableEq, Repr

/-- The JavaScript comparison `x <= 0`: false on NaN and on +Infinity, true
on -Infinity; a finite decimal fraction is ≤ 0 exactly when its numerator
is (the denominator is a positive power of ten). -/
def JSNum.le0 : JSNum → Bool
  | .nan => false
  | .inf neg => neg
  | .fin d => decide (d.num ≤ 0)

/-- Whitespace characters skipped by parseFloat before the number. -/
def isWsChar (c : Char) : Bool :=
  c = ' ' || c = '\t' || c = '\n' || c = '\r'

/-- Value of a list of decimal digit characters, most significant first. -/
def digitsVal (l : List Char) : ℕ :=
  l.foldl (fun a c => a * 10 + (c.toNat - 48)) 0

/-- Split an optional leading sign from a character list; returns whether the
sign was minus, and the rest. -/
def splitSign : List Char → Bool × List Char
  | '-' :: t => (true, t)
  | '+' :: t => (false, t)
  | t => (false, t)

/-- Exponent value parsed after a mantissa: if the list starts with e or E
followed by an optional sign and at least one digit, its signed value;
otherwise 0 (parseFloat ignores an incomplete exponent part). -/
def expVal (l : List Char) : ℤ :=
  match l with
  | c :: t =>
    if c = 'e' || c = 'E' then
      let (eneg, t1) := splitSign t
      let ds := t1.takeWhile Char.isDigit
      if ds.isEmpty then 0
      else if eneg then -(digitsVal ds : ℤ) else (digitsVal ds : ℤ)
    else 0
  | [] => 0

/-- Scale a decimal fraction by a signed power of ten. -/
def scalePow10 (d : Dec) (e : ℤ) : Dec :=
  if 0 ≤ e then { d with num := d.num * (10 : ℤ) ^ e.toNat }
  else { d with den := d.den * 10 ^ (-e).toNat }

/-- JavaScript parseFloat: skip leading whitespace, an optional sign, then
the longest prefix that is Infinity or a decimal literal (digits, an optional
fraction, an optional complete exponent part); NaN when no digits occur. -/
def parseFloat (s : String) : JSNum :=
  let l := s.toList.dropWhile isWsChar
  let (neg, l1) := splitSign l
  if l1.take 8 = "Infinity".toList then .inf neg
  else
    let intPart := l1.takeWhile Char.isDigit
    let r1 := l1.dropWhile Char.isDigit
    let fracPart := match r1 with
      | '.' :: t => t.takeWhile Char.isDigit
      | _ => []
    let r2 := match r1 with
      | '.' :: t => t.dropWhile Char.isDigit
      | t => t
    if intPart.isEmpty && fracPart.isEmpty then .nan
    else
      let mant : Dec :=
        { num := (digitsVal intPart * 10 ^ fracPart.length + digitsVal fracPart : ℕ)
          den := 10 ^ fracPart.length }
      let v := scalePow10 mant (expVal r2)
      .fin (if neg then { v with num := -v.num } else v)

/-- ASCII lowercasing of one character, as toLowerCase acts on the currency
codes USD and SSP. -/
def lowerChar (c : Char) : Char :=
  if 'A' ≤ c && c ≤ 'Z' then Char.ofNat (c.toNat + 32) else c

/-- ASCII lowercasing of a string, modelling currency.toLowerCase(). -/
def jsToLower (s : String) : String :=
  String.mk (s.data.map lowerChar)

/-- The JavaScript idiom `s || null` on a string: null exactly on the empty
string. -/
def orNull (s : String) : Option String :=
  if s = "" then none else some s

/-- The JavaScript idiom `a || b` on an optional string with fallback: the
string when present and non-empty, else the fallback. -/
def jsOrElse (s : Option String) (fb : String) : String :=
  match s with
  | some d => if d = "" then fb else d
  | none => fb

/-- The donorInfo state object of the Donations page. -/
structure DonorInfo where
  name : String
  email : String
  message : String
deriving DecidableEq, Repr

/-- The form-relevant state of the Donations page: the amount input string
and the select values, plus the donor info fields. -/
structure DonationForm where
  amount : String
  category : String
  frequency : String
  currency : String
  donorInfo : DonorInfo
deriving DecidableEq, Repr

/-- The request body handleDonate passes to createDonationCheckout. -/
structure DonationRequest where
  amount : JSNum
  currency : String
  category : String
  frequency : String
  donor_name : Option String
  donor_email : Option String
  message : Option String
  anonymous : Bool
deriving DecidableEq, Repr

/-- The request body built inline in Donations.jsx handleDonate. -/
def buildDonationRequest (f : DonationForm) : DonationRequest :=
  { amount := parseFloat f.amount
    currency := jsToLower f.currency
    category := f.category
    frequency := f.frequency
    donor_name := orNull f.donorInfo.name
    donor_email := orNull f.donorInfo.email
    message := orNull f.donorInfo.message
    anonymous := f.donorInfo.name = "" }

/-- The request body built in the Donations.js variant of handleDonate, whose
currency is the fixed string usd. -/
def buildDonationRequestJs (f : DonationForm) : DonationRequest :=
  { buildDonationRequest f with currency := "usd" }

/-- The validation guard of handleDonate:
`!amount || parseFloat(amount) <= 0`. -/
def donateBlocked (amount : String) : Bool :=
  amount = "" || (parseFloat amount).le0

/-- Outcome of the awaited createDonationCheckout call: the response url on
success, or a failure carrying the optional backend detail message. -/
inductive CheckoutResult where
  | ok (url : String) : CheckoutResult
  | err (detail : Option String) : CheckoutResult
deriving DecidableEq, Repr

/-- Observable effects of one handleDonate run. -/
inductive Eff where
  | toastError (title : String) (description : Option String) : Eff
  | networkCheckout (req : DonationRequest) : Eff
  | redirect (url : String) : Eff
deriving DecidableEq, Repr

/-- Result of one handleDonate run: the ordered effects it performs and the
final value of the loading flag (set in the finally block). -/
structure DonateOutcome where
  effs : List Eff
  loading : Bool
deriving DecidableEq, Repr

/-- Donations.jsx handleDonate as a function of the form state and of the
outcome of the awaited checkout call: validation guard, then either the
network call followed by the redirect, or the network call followed by the
generic error toast; loading is false after every completion. -/
def handleDonate (f : DonationForm) (r : CheckoutResult) : DonateOutcome :=
  if donateBlocked f.amount then
    { effs := [.toastError "Please enter a valid amount" none], loading := false }
  else
    match r with
    | .ok url =>
      { effs := [.networkCheckout (buildDonationRequest f), .redirect url]
        loading := false }
    | .err _ =>
      { effs := [.networkCheckout (buildDonationRequest f),
                 .toastError "Donation Failed" none]
        loading := false }

/-- Donations.js handleDonate: same control flow, but the request currency is
the fixed usd and the error toast carries the backend detail message with the
fallback Please try again later. -/
def handleDonateJs (f : DonationForm) (r : CheckoutResult) : DonateOutcome :=
  if donateBlocked f.amount then
    { effs := [.toastError "Please enter a valid amount" none], loading := false }
  else
    match r with
    | .ok url =>
      { effs := [.networkCheckout (buildDonationRequestJs f), .redirect url]
        loading := false }
    | .err detail =>
      { effs := [.networkCheckout (buildDonationRequestJs f),
                 .toastError "Donation Failed"
                   (some (jsOrElse detail "Please try again later."))]
        loading := false }

/-- The urls of the full-page redirects among a list of effects. -/
def redirects (effs : List Eff) : List String :=
  effs.filterMap fun e =>
    match e with
    | .redirect u => some u
    | _ => none

/-- The checkout request bodies issued among a list of effects. -/
def networkCalls (effs : List Eff) : List DonationRequest :=
  effs.filterMap fun e =>
    match e with
    | .networkCheckout req => some req
    | _ => none

/-- The error toasts surfaced among a list of effects. -/
def errorToasts (effs : List Eff) : List (String × Option String) :=
  effs.filterMap fun e =>
    match e with
    | .toastError t d => some (t, d)
    | _ => none

/-- The body of the status response returned by getDonationStatus:
payment_status and amount_total in minor currency units. -/
structure PaymentStatus where
  payment_status : String
  amount_total : ℕ
deriving DecidableEq, Repr

/-- Two-digit zero padding of a remainder below 100. -/
def pad2 (r : ℕ) : String :=
  if r < 10 then "0" ++ toString r else toString r

/-- The JavaScript expression (amount_total / 100).toFixed(2) for a
non-negative integer amount of minor units. -/
def toFixed2cents (n : ℕ) : String :=
  toString (n / 100) ++ "." ++ pad2 (n % 100)

/-- The amount text rendered by DonationSuccess for a paid status: a literal
dollar sign followed by (amount_total / 100).toFixed(2). The JSX reads
only payment_status and amount_total; no currency value reaches this page. -/
def donationAmountDisplay (st : PaymentStatus) : String :=
  "$" ++ toFixed2cents st.amount_total

/-- The three distinguishable renderings of the DonationSuccess page:
the loading text, the success block with the amount, and the neutral
Donation Status block (shown both without a session and when unpaid). -/
inductive SuccessView where
  | checking : SuccessView
  | confirmed (amountText : String) : SuccessView
  | neutral : SuccessView
deriving DecidableEq, Repr

/-- The render of DonationSuccess from its two state variables, following
the JSX conditional: loading, else status truthy and paid, else neutral. -/
def renderSuccess (loading : Bool) (status : Option PaymentStatus) : SuccessView :=
  if loading then .checking
  else
    match status with
    | some st =>
      if st.payment_status = "paid" then .confirmed (donationAmountDisplay st)
      else .neutral
    | none => .neutral

/-- Final component state of one DonationSuccess page view, together with
the number of status fetches it issued. -/
structure SuccessRun where
  statusCalls : ℕ
  loading : Bool
  status : Option PaymentStatus
deriving DecidableEq, Repr

/-- One DonationSuccess page view as a function of the session_id query
parameter and of the outcome of the single awaited getDonationStatus call:
no parameter means no fetch and loading set false; otherwise one fetch whose
success stores the response and whose failure is caught, loading set false
in the finally block either way. -/
def runSuccessPage (sid : Option String)
    (fetch : String → Except Unit PaymentStatus) : SuccessRun :=
  match sid with
  | none => { statusCalls := 0, loading := false, status := none }
  | some id =>
    match fetch id with
    | .ok st => { statusCalls := 1, loading := false, status := some st }
    | .error _ => { statusCalls := 1, loading := false, status := none }

/-- The view a DonationSuccess page run settles on. -/
def successFinalView (sid : Option String)
    (fetch : String → Except Unit PaymentStatus) : SuccessView :=
  let r := runSuccessPage sid fetch
  renderSuccess r.loading r.status

/-- State of the donation form UI relevant to double submission: the loading
flag wired to the Button disabled attribute, and the number of checkout
requests issued so far. -/
structure UIState where
  loading : Bool
  sent : ℕ
deriving DecidableEq, Repr

/-- One click on the Donate button: a disabled button (loading true) delivers
no handler call; an enabled one runs handleDonate, which either stops at
validation or sets loading true and issues the checkout request, which stays
in flight until settled. -/
def pressDonate (f : DonationForm) (st : UIState) : UIState :=
  if st.loading then st
  else if donateBlocked f.amount then st
  else { loading := true, sent := st.sent + 1 }

/-- Completion of the in-flight handleDonate call: the finally block sets
loading back to false. -/
def settleDonate (st : UIState) : UIState :=
  { st with loading := false }

/-- Whether a DonationSuccess view is the success block. -/
def SuccessView.isConfirmed : SuccessView → Bool
  | .confirmed _ => true
  | _ => false

/-- Concrete form with a non-empty, non-numeric amount string. -/
def c1Form : DonationForm :=
  { amount := "abc", category := "general", frequency := "one_time",
    currency := "USD", donorInfo := { name := "", email := "", message := "" } }

/-- Concrete form matching the spec scenario: amount 50.00, currency USD,
category general, frequency one time, no donor name. -/
def c2Form : DonationForm :=
  { amount := "50.00", category := "general", frequency := "one_time",
    currency := "USD", donorInfo := { name := "", email := "", message := "" } }

/-- Concrete valid form used for the error-path claim. -/
def c5Form : DonationForm :=
  { amount := "25", category := "emergency", frequency := "monthly",
    currency := "USD", donorInfo := { name := "", email := "", message := "" } }

/-- Concrete valid form used for the double-submit claim. -/
def c6Form : DonationForm :=
  { amount := "10", category := "general", frequency := "one_time",
    currency := "USD", donorInfo := { name := "", email := "", message := "" } }

/-- Concrete valid form used for the redirect claim. -/
def c7Form : DonationForm :=
  { amount := "15", category := "building_fund", frequency := "one_time",
    currency := "USD", donorInfo := { name := "", email := "", message := "" } }

/-- Concrete form with USD selected, for the currency claim. -/
def c8Form : DonationForm :=
  { amount := "50.00", category := "general", frequency := "one_time",
    currency := "USD", donorInfo := { name := "", email := "", message := "" } }

/-- Concrete form with SSP selected, for the amended currency claim. -/
def c8sspForm : DonationForm :=
  { amount := "50", category := "general", frequency := "one_time",
    currency := "SSP", donorInfo := { name := "", email := "", message := "" } }

/-- Concrete form with an empty name, a non-empty email and an empty
message, for the optional-fields claim. -/
def c9Form : DonationForm :=
  { amount := "50", category := "general", frequency := "one_time",
    currency := "USD", donorInfo := { name := "", email := "a@b.c", message := "" } }

/-- A status fetch that succeeds with a paid status of 5000 minor units. -/
def c4Fetch : String → Except Unit PaymentStatus :=
  fun _ => .ok { payment_status := "paid", amount_total := 5000 }

/-- Claim C1, counterexample: a non-empty, non-numeric amount string such as
abc parses to NaN, and since NaN <= 0 is false in JavaScript the guard does
not block: handleDonate issues the checkout network call and surfaces no
validation toast, contradicting the claim for non-numeric input. -/
theorem handleDonate_nonNumeric_not_blocked :
    parseFloat c1Form.amount = JSNum.nan ∧
    networkCalls (handleDonate c1Form (.ok "https://pay.example/s")).effs =
      [buildDonationRequest c1Form] ∧
    errorToasts (handleDonate c1Form (.ok "https://pay.example/s")).effs = [] := by
  decide

/-- Claim C1, amended: for every submit where the amount input is empty or
parses to a value that is <= 0, handleDonate performs exactly the validation
toast: it issues no network call to the checkout endpoint and surfaces the
validation message. -/
theorem handleDonate_blocked_no_network (f : DonationForm) (r : CheckoutResult)
    (h : f.amount = "" ∨ (parseFloat f.amount).le0 = true) :
    handleDonate f r =
      { effs := [Eff.toastError "Please enter a valid amount" none],
        loading := false } := by
  have hb : donateBlocked f.amount = true := by
    rcases h with h | h <;> simp [donateBlocked, h]
  simp [handleDonate, hb]

/-- Witness for the amended claim C1 at the concrete amount -5. -/
theorem handleDonate_blocked_no_network_witness :
    handleDonate
        { amount := "-5", category := "general", frequency := "one_time",
          currency := "USD",
          donorInfo := { name := "", email := "", message := "" } }
        (.ok "https://pay.example/s") =
      { effs := [Eff.toastError "Please enter a valid amount" none],
        loading := false } :=
  handleDonate_blocked_no_network _ _ (Or.inr (by decide))

/-- Claim C2: in every request body built by handleDonate, anonymous is true
exactly when the donor name input is empty, equivalently exactly when
donor_name is sent as null; an empty name is sent as null. The request is a
function of the form state alone, so anonymous is never independently
settable. -/
theorem anonymous_iff_donorName_empty (f : DonationForm) :
    ((buildDonationRequest f).anonymous = true ↔ f.donorInfo.name = "") ∧
    ((buildDonationRequest f).anonymous = true ↔
      (buildDonationRequest f).donor_name = none) ∧
    (f.donorInfo.name = "" → (buildDonationRequest f).donor_name = none) := by
  by_cases h : f.donorInfo.name = "" <;>
    simp [buildDonationRequest, orNull, h]

/-- Witness for claim C2 at the spec scenario: amount 50.00, currency USD,
category general, frequency one time, no donor name gives anonymous true and
donor_name null. -/
theorem anonymous_iff_donorName_empty_witness :
    (buildDonationRequest c2Form).anonymous = true ∧
    (buildDonationRequest c2Form).donor_name = none :=
  ⟨(anonymous_iff_donorName_empty c2Form).1.mpr rfl,
   (anonymous_iff_donorName_empty c2Form).2.2 rfl⟩

/-- Claim C3, code evaluated at the failing input: for the status response
payment_status paid with amount_total 5000 the confirmation page renders the
amount as the hard-coded dollar sign followed by amount_total / 100 with two
fraction digits, i.e. $50.00 — the render never reads the donation currency,
so an SSP donation is also shown with the dollar symbol. -/
theorem donationAmountDisplay_hardcoded_dollar :
    donationAmountDisplay { payment_status := "paid", amount_total := 5000 } =
      "$50.00" ∧
    successFinalView (some "cs_test")
        (fun _ => .ok { payment_status := "paid", amount_total := 5000 }) =
      SuccessView.confirmed "$50.00" := by
  decide

/-- Claim C4: a DonationSuccess page view with no session_id issues no status
fetch and renders the neutral display; with a session_id it issues exactly
one fetch, settles on the confirmed view exactly when the fetch succeeds
with payment_status paid, settles on the neutral display in every other case
(the failure branch is caught, so no error escapes), and never stays on the
loading view. -/
theorem successPage_reconciliation (sid : Option String)
    (fetch : String → Except Unit PaymentStatus) :
    (sid = none →
      (runSuccessPage sid fetch).statusCalls = 0 ∧
      successFinalView sid fetch = SuccessView.neutral) ∧
    (∀ id, sid = some id →
      (runSuccessPage sid fetch).statusCalls = 1 ∧
      ((successFinalView sid fetch).isConfirmed = true ↔
        ∃ st, fetch id = .ok st ∧ st.payment_status = "paid") ∧
      ((successFinalView sid fetch).isConfirmed = false →
        successFinalView sid fetch = SuccessView.neutral) ∧
      successFinalView sid fetch ≠ SuccessView.checking) := by
  constructor
  · rintro rfl
    exact ⟨rfl, rfl⟩
  · rintro id rfl
    cases hf : fetch id with
    | error e =>
      simp [runSuccessPage, successFinalView, renderSuccess, hf,
        SuccessView.isConfirmed]
    | ok st =>
      by_cases hp : st.payment_status = "paid" <;>
        simp [runSuccessPage, successFinalView, renderSuccess, hf, hp,
          SuccessView.isConfirmed]

/-- Witness for claim C4: a concrete session id with a fetch that succeeds
paid gives one status call and the confirmed view. -/
theorem successPage_reconciliation_witness :
    (runSuccessPage (some "cs_a") c4Fetch).statusCalls = 1 ∧
    (successFinalView (some "cs_a") c4Fetch).isConfirmed = true :=
  ⟨((successPage_reconciliation (some "cs_a") c4Fetch).2 "cs_a" rfl).1,
   (((successPage_reconciliation (some "cs_a") c4Fetch).2 "cs_a" rfl).2.1).mpr
     ⟨_, rfl, rfl⟩⟩

/-- Claim C5: on every failed checkout initiation past validation, the
Donations.jsx handler surfaces the generic Donation Failed notification and
the Donations.js variant surfaces the notification carrying the backend
detail message or the generic fallback; both reset loading to false, which
re-enables the submit Button (disabled is wired to loading). -/
theorem checkoutFailure_surfaced (f : DonationForm) (detail : Option String)
    (h : donateBlocked f.amount = false) :
    Eff.toastError "Donation Failed" none ∈ (handleDonate f (.err detail)).effs ∧
    (handleDonate f (.err detail)).loading = false ∧
    Eff.toastError "Donation Failed"
        (some (jsOrElse detail "Please try again later.")) ∈
      (handleDonateJs f (.err detail)).effs ∧
    (handleDonateJs f (.err detail)).loading = false := by
  simp [handleDonate, handleDonateJs, h]

/-- Witness for claim C5 at a concrete form and backend detail. -/
theorem checkoutFailure_surfaced_witness :
    Eff.toastError "Donation Failed" none ∈
      (handleDonate c5Form (.err (some "Card declined"))).effs ∧
    (handleDonate c5Form (.err (some "Card declined"))).loading = false ∧
    Eff.toastError "Donation Failed"
        (some (jsOrElse (some "Card declined") "Please try again later.")) ∈
      (handleDonateJs c5Form (.err (some "Card declined"))).effs ∧
    (handleDonateJs c5Form (.err (some "Card declined"))).loading = false :=
  checkoutFailure_surfaced c5Form (some "Card declined") (by decide)

/-- Claim C6: the Donate button is inert whenever loading is true, so a press
during an in-flight request changes nothing; two rapid presses issue at most
one checkout request; and an enabled press with a valid amount issues exactly
one request and disables the control for the duration of the flight. -/
theorem doubleSubmit_at_most_one_request (f : DonationForm) (st : UIState) :
    (st.loading = true → pressDonate f st = st) ∧
    (pressDonate f (pressDonate f st)).sent ≤ st.sent + 1 ∧
    (st.loading = false → donateBlocked f.amount = false →
      (pressDonate f st).sent = st.sent + 1 ∧
      (pressDonate f st).loading = true) := by
  refine ⟨?_, ?_, ?_⟩
  · intro h
    simp [pressDonate, h]
  · by_cases hl : st.loading <;> by_cases hb : donateBlocked f.amount <;>
      simp [pressDonate, hl, hb]
  · intro hl hb
    simp [pressDonate, hl, hb]

/-- Witness for claim C6: from the idle state two presses with a valid
amount issue exactly one request, and a press while loading is a no-op. -/
theorem doubleSubmit_at_most_one_request_witness :
    pressDonate c6Form { loading := true, sent := 1 } =
      { loading := true, sent := 1 } ∧
    (pressDonate c6Form (pressDonate c6Form { loading := false, sent := 0 })).sent
      ≤ 0 + 1 ∧
    (pressDonate c6Form { loading := false, sent := 0 }).sent = 0 + 1 :=
  ⟨(doubleSubmit_at_most_one_request c6Form { loading := true, sent := 1 }).1 rfl,
   (doubleSubmit_at_most_one_request c6Form { loading := false, sent := 0 }).2.1,
   ((doubleSubmit_at_most_one_request c6Form
      { loading := false, sent := 0 }).2.2 rfl (by decide)).1⟩

/-- Claim C7: on every successful checkout initiation the handler performs
exactly one redirect, whose target is exactly the url returned by the
backend, and exactly one checkout network call. -/
theorem checkoutSuccess_single_redirect (f : DonationForm) (url : String)
    (h : donateBlocked f.amount = false) :
    redirects (handleDonate f (.ok url)).effs = [url] ∧
    networkCalls (handleDonate f (.ok url)).effs = [buildDonationRequest f] := by
  simp [handleDonate, h, redirects, networkCalls]

/-- Witness for claim C7 at a concrete form and backend url. -/
theorem checkoutSuccess_single_redirect_witness :
    redirects
        (handleDonate c7Form (.ok "https://checkout.stripe.example/cs_1")).effs =
      ["https://checkout.stripe.example/cs_1"] ∧
    networkCalls
        (handleDonate c7Form (.ok "https://checkout.stripe.example/cs_1")).effs =
      [buildDonationRequest c7Form] :=
  checkoutSuccess_single_redirect c7Form "https://checkout.stripe.example/cs_1"
    (by decide)

/-- Claim C8, counterexample: with USD selected the request body carries the
lowercased code usd, which is neither of the enumerated codes USD and SSP,
so the currency field is not the code as selected by the user. -/
theorem currency_lowercased_counterexample :
    c8Form.currency = "USD" ∧
    (buildDonationRequest c8Form).currency = "usd" ∧
    (buildDonationRequest c8Form).currency ≠ "USD" ∧
    (buildDonationRequest c8Form).currency ≠ "SSP" := by
  decide

/-- Claim C8, amended: for every form whose selected currency is USD or SSP
(the only options the select offers), the request body carries the ASCII
lowercasing of the selection, i.e. usd or ssp respectively. -/
theorem currency_lowercased (f : DonationForm)
    (h : f.currency = "USD" ∨ f.currency = "SSP") :
    (buildDonationRequest f).currency = jsToLower f.currency ∧
    ((buildDonationRequest f).currency = "usd" ∨
      (buildDonationRequest f).currency = "ssp") := by
  refine ⟨rfl, ?_⟩
  have hc : (buildDonationRequest f).currency = jsToLower f.currency := rfl
  rcases h with h | h
  · left
    rw [hc, h]
    decide
  · right
    rw [hc, h]
    decide

/-- Witness for the amended claim C8 at the SSP selection. -/
theorem currency_lowercased_witness :
    (buildDonationRequest c8sspForm).currency = jsToLower c8sspForm.currency ∧
    ((buildDonationRequest c8sspForm).currency = "usd" ∨
      (buildDonationRequest c8sspForm).currency = "ssp") :=
  currency_lowercased c8sspForm (Or.inr rfl)

/-- Claim C9: each of donor_name, donor_email and message is sent as null
exactly when the corresponding input is the empty string, is sent as the
input string itself when non-empty, and is never sent as an empty string. -/
theorem optionalFields_null_iff_empty (f : DonationForm) :
    ((buildDonationRequest f).donor_name = none ↔ f.donorInfo.name = "") ∧
    (f.donorInfo.name ≠ "" →
      (buildDonationRequest f).donor_name = some f.donorInfo.name) ∧
    ((buildDonationRequest f).donor_email = none ↔ f.donorInfo.email = "") ∧
    (f.donorInfo.email ≠ "" →
      (buildDonationRequest f).donor_email = some f.donorInfo.email) ∧
    ((buildDonationRequest f).message = none ↔ f.donorInfo.message = "") ∧
    (f.donorInfo.message ≠ "" →
      (buildDonationRequest f).message = some f.donorInfo.message) ∧
    (buildDonationRequest f).donor_name ≠ some "" ∧
    (buildDonationRequest f).donor_email ≠ some "" ∧
    (buildDonationRequest f).message ≠ some "" := by
  by_cases h1 : f.donorInfo.name = "" <;>
    by_cases h2 : f.donorInfo.email = "" <;>
      by_cases h3 : f.donorInfo.message = "" <;>
        simp [buildDonationRequest, orNull, h1, h2, h3]

/-- Witness for claim C9: empty name sent as null, non-empty email sent as
the input string. -/
theorem optionalFields_null_iff_empty_witness :
    (buildDonationRequest c9Form).donor_name = none ∧
    (buildDonationRequest c9Form).donor_email = some "a@b.c" :=
  ⟨(optionalFields_null_iff_empty c9Form).1.mpr rfl,
   (optionalFields_null_iff_empty c9Form).2.2.2.1 (by decide)⟩

/-- Claim C10: every completion of handleDonate, on the blocked path, the
success path and the failure path, leaves the loading flag false (the
finally block), in both the Donations.jsx and Donations.js variants — so
the submit control is re-enabled even after a successful initiation. -/
theorem loading_reset_after_completion (f : DonationForm) (r : CheckoutResult) :
    (handleDonate f r).loading = false ∧ (handleDonateJs f r).loading = false := by
  by_cases hb : donateBlocked f.amount <;> cases r <;>
    simp [handleDonate, handleDonateJs, hb]

end HNM

/-! Behavioural checks of the parseFloat model on concrete inputs. -/

example : HNM.parseFloat "50.00" = .fin ⟨5000, 100⟩ := by decide
example : HNM.parseFloat "-0" = .fin ⟨0, 1⟩ := by decide
example : HNM.parseFloat ".5" = .fin ⟨5, 10⟩ := by decide
example : HNM.parseFloat "5e" = .fin ⟨5, 1⟩ := by decide
example : HNM.parseFloat "2e-2" = .fin ⟨2, 100⟩ := by decide
example : HNM.parseFloat "." = .nan := by decide
example : HNM.parseFloat "" = .nan := by decide
example : HNM.parseFloat " Infinity" = .inf false := by decide
example : HNM.donateBlocked "" = true := by decide
example : HNM.donateBlocked "0" = true := by decide
example : HNM.donateBlocked "-5" = true := by decide
example : HNM.donateBlocked "50.00" = false := by decide
example : HNM.jsToLower "SSP" = "ssp" := by decide
